import Mathlib

/-!
Verification development for the Network PVR transfer script
(`PVRtransfer.py`, a Python 2 program).  The script reacts to a finished
TVHeadend recording: it checks for scheduling conflicts, probes the NFS
share, writes a SHA256 sidecar checksum, moves the recording plus sidecar
to the share, and also sweeps the schedule directory for older completed
recordings that were never transferred.

The embedding below mirrors the source function by function:

* Timestamps are modelled as `Int` (epoch seconds).  `datetime.fromtimestamp`
  is strictly monotone, so every comparison of the resulting `datetime`
  objects coincides with the comparison of the underlying numbers.
* `sys.exit(c)` and uncaught Python exceptions are modelled by the
  `Outcome` type: a run either returns a value, terminates the process with
  an exit code, or propagates an exception.  Python 2 `except Exception`
  handlers catch `Outcome.raise` but not `Outcome.exit` (`SystemExit`
  derives from `BaseException`, not `Exception`).
* In Python 2 an ordering comparison between `None` and a `datetime`
  raises `TypeError` (the `datetime` rich comparison refuses non-datetime
  operands instead of falling back to the default ordering); the embedding
  reproduces this where the source compares the possibly-`None` variables
  `upcoming` / `nextrec` against a `datetime`.
* Side effects (log lines, alert emails, filesystem moves, checksum
  writes, DVR-entry deletions) are recorded in an `Action` trace.
* Filesystem contents are an association list from path to file content;
  external probe results, move failures, hash values and DVR responses are
  supplied as explicit oracle parameters, since they are environment
  behaviour, not logic of the script.
-/

namespace PVR

/-- Python exception kinds the script can raise or catch.  `shutil.Error`
is represented separately inside `MoveResult` because `moveRecording`
distinguishes it syntactically (`except shutil.Error`). -/
inductive PyError : Type
  | typeError (msg : String)
  | keyError (key : String)
  | valueError (msg : String)
  | ioError (msg : String)
  | shutilError (msg : String)
  deriving DecidableEq, Repr

/-- Result of running a piece of the script: a normal return, process
termination via `sys.exit code`, or a propagating Python exception. -/
inductive Outcome (α : Type) : Type
  | ret (a : α)
  | exit (code : Nat)
  | raise (e : PyError)
  deriving DecidableEq, Repr

/-- Observable side effects, in program order.  Emails carry subject and
plain-text body as handed to `sendEmail`. -/
inductive Action : Type
  | log (msg : String)
  | email (subject : String) (body : String)
  | checksumWrite (path : String)
  | moveFile (src : String) (dst : String)
  | htspDelete (id : String)
  deriving DecidableEq, Repr

/-- Python `str(True)` / `str(False)`. -/
def pyBool (b : Bool) : String := if b then "True" else "False"

/-- Rendering of `str(err)` used by the `logPrint('Exception: %s' % str(err))`
handlers; the exact Python rendering of each exception is abbreviated to
its payload. -/
def pyErrStr : PyError → String
  | .typeError m => m
  | .keyError k => k
  | .valueError m => m
  | .ioError m => m
  | .shutilError m => m

/-- Python whitespace characters stripped by `str.strip()`. -/
def pyWS (c : Char) : Bool :=
  c == ' ' || c == '\t' || c == '\n' || c == '\r' || c == '\x0b' || c == '\x0c'

/-- Python `s.strip()`: remove leading and trailing whitespace. -/
def pyStrip (s : String) : String :=
  String.mk (((s.data.dropWhile pyWS).reverse.dropWhile pyWS).reverse)

/-- `os.path.basename`: the part of the path after the last slash. -/
def pyBasename (s : String) : String :=
  String.mk ((s.data.reverse.takeWhile (fun c => c != '/')).reverse)

/-- Stem part of `os.path.splitext` (posixpath): drop the extension that
starts at the last dot of the basename, unless every character of the
basename before that dot is itself a dot (hidden files keep their name). -/
def splitextStem (s : String) : String :=
  let l := s.data
  let revBase := l.reverse.takeWhile (fun c => c != '/')
  let dirPart := l.take (l.length - revBase.length)
  let base := revBase.reverse
  let afterDot := revBase.takeWhile (fun c => c != '.')
  if afterDot.length = revBase.length then s
  else
    let stem := base.take (base.length - afterDot.length - 1)
    if stem.any (fun c => c != '.') then String.mk (dirPart ++ stem) else s

/-- Sidecar checksum path: `'%s.sha2' % os.path.splitext(filepath)[0]`. -/
def sha2Path (p : String) : String := splitextStem p ++ ".sha2"

/-- Destination NFS share root (the `shared_path` global). -/
def sharedPath : String := "/mnt/nas-pvr/"

/-- `os.path.join` for two components (posixpath). -/
def pyJoin (a b : String) : String :=
  if b.data.head? = some '/' then b
  else if a = "" ∨ a.data.getLast? = some '/' then a ++ b
  else a ++ "/" ++ b

/-- Destination path of a transferred file: `os.path.abspath(os.path.join(
shared_path, os.path.basename(p)))`; the join of the absolute, normalised
share root with a basename is already absolute and normalised, so
`abspath` is the identity here. -/
def destPath (p : String) : String := pyJoin sharedPath (pyBasename p)

/-- Local filesystem model: association list from path to file content. -/
abbrev FS := List (String × String)

/-- Content of a file, if present (`open(p).read()` seen as a value). -/
def fsLookup (fs : FS) (p : String) : Option String :=
  (fs.find? (fun e => e.1 == p)).map (fun e => e.2)

/-- `os.path.exists p` over the filesystem model. -/
def fsHas (fs : FS) (p : String) : Bool := (fsLookup fs p).isSome

/-- Write (create or overwrite) a file. -/
def fsWrite (fs : FS) (p c : String) : FS :=
  (p, c) :: fs.filter (fun e => !(e.1 == p))

/-- Effect of a successful `shutil.move src dst` on the filesystem model. -/
def moveFS (fs : FS) (src dst : String) : FS :=
  match fsLookup fs src with
  | none => fs
  | some c => fsWrite (fs.filter (fun e => !(e.1 == src))) dst c

/-- Model of `generateChecksum(filepath)` (PVRtransfer.py lines 133-151).
`sha256` is the digest oracle applied to the file content (the streaming
`generateFileChecksum` is content-determined).  `recompute` is the global
`recompute` flag.  If the file to hash is unreadable the `open` raises an
I/O error; if the sidecar already exists and `recompute` is false, nothing
is recomputed or written. -/
def generateChecksum (sha256 : String → String) (recompute : Bool) (fs : FS)
    (filepath : String) : Outcome (String × FS) × List Action :=
  let fname := pyBasename filepath
  let chkfile := sha2Path filepath
  let existing := fsHas fs chkfile
  if !existing || recompute then
    match fsLookup fs filepath with
    | none => (.raise (.ioError ("No such file or directory: " ++ filepath)), [])
    | some content =>
        let chksum := sha256 content
        (.ret (chkfile, fsWrite fs chkfile (chksum ++ " *" ++ fname)),
         [.log ("Generated SHA256 checksum for " ++ fname ++ ": " ++ chksum),
          .checksumWrite chkfile])
  else (.ret (chkfile, fs), [])

/-- Outcome of the bounded-time `os.path.ismount(shared_path)` probe:
the SIGALRM timeout fired, the probe answered, or the call itself raised. -/
inductive MountProbe : Type
  | timeout
  | mounted
  | notMounted
  | raises (msg : String)
  deriving DecidableEq, Repr

/-- Outcome of the writability test (`open` the sentinel file, close it,
`os.remove` it).  `ioErr` tells whether a failure is an `IOError` (caught
by the inner handler) or another exception (caught by the outer
`except Exception`).  A failing `os.remove` happens after `writable` was
already set to `True`. -/
inductive WriteTest : Type
  | ok
  | openFail (ioErr : Bool) (msg : String)
  | removeFail (ioErr : Bool) (msg : String)
  deriving DecidableEq, Repr

/-- The `logPrint('Share mounted = %s, writable = %s' % ...)` line. -/
def sharePairMsg (m w : Bool) : String :=
  "Share mounted = " ++ pyBool m ++ ", writable = " ++ pyBool w

/-- `alertShare msg`: one email via `sendEmail`. -/
def shareEmail (msg : String) : Action :=
  .email "Share not accessible" ("The share was not accessible: " ++ msg)

/-- Model of `checkShare(report)` (PVRtransfer.py lines 214-266) together
with the SIGALRM handler `handleShareError` (lines 105-111).  On timeout
the handler logs, alerts and exits(1) unconditionally — it never consults
`report`.  All other failure branches alert and exit(1) only when
`report` is true; otherwise control reaches the final
`logPrint('Share mounted = ...')` and the `(mounted, writable)` pair is
returned. -/
def checkShare (report : Bool) (probe : MountProbe) (wt : WriteTest) :
    Outcome (Bool × Bool) × List Action :=
  match probe with
  | .timeout =>
      (.exit 1, [.log "Stale share mount!", shareEmail "Stale share mount!"])
  | .raises msg =>
      let m := "Error checking share.\n" ++ msg
      if report then (.exit 1, [.log m, shareEmail m])
      else (.ret (false, false), [.log m, .log (sharePairMsg false false)])
  | .notMounted =>
      let m := "Share is not mounted."
      if report then (.exit 1, [.log m, shareEmail m])
      else (.ret (false, false), [.log m, .log (sharePairMsg false false)])
  | .mounted =>
      match wt with
      | .ok => (.ret (true, true), [.log (sharePairMsg true true)])
      | .openFail ioErr msg =>
          let m := if ioErr then "Unable to write to share: " ++ msg
                   else "Error checking share.\n" ++ msg
          if report then (.exit 1, [.log m, shareEmail m])
          else (.ret (true, false), [.log m, .log (sharePairMsg true false)])
      | .removeFail ioErr msg =>
          let m := if ioErr then "Unable to write to share: " ++ msg
                   else "Error checking share.\n" ++ msg
          if report then (.exit 1, [.log m, shareEmail m])
          else (.ret (true, true), [.log m, .log (sharePairMsg true true)])

/-- Result of one `shutil.move` step: success, a `shutil.Error` (the only
exception class `moveRecording` catches), or any other exception (for
example the `IOError` that `shutil.copy2` raises when the destination is
unwritable, or the `OSError` of `os.unlink`). -/
inductive MoveResult : Type
  | ok
  | shutilErr (msg : String)
  | otherErr (e : PyError)
  deriving DecidableEq, Repr

/-- `alertTransfer recording chkfile err` email (the source string carries
a doubled space where the Python line continuation joins). -/
def transferEmail (recording chkfile e : String) : Action :=
  .email "File transfer failed"
    ("The transfer of file recording " ++ recording ++ " or checksum file " ++
     chkfile ++ " to the  share failed due to an error: \n\n" ++ e)

/-- Model of `moveRecording(recording, chkfile)` (PVRtransfer.py lines
299-318).  The two `shutil.move` calls run in order inside one `try`
guarded only by `except shutil.Error`: a `shutil.Error` from either step
is alerted, logged and turned into `False`; any other exception
propagates.  The first move's filesystem effect persists even when the
second step fails. -/
def moveRecording (mv1 mv2 : MoveResult) (fs : FS) (recording chkfile : String) :
    Outcome Bool × FS × List Action :=
  let r := pyBasename recording
  let dest_r := destPath recording
  let dest_c := destPath chkfile
  match mv1 with
  | .shutilErr m =>
      (.ret false, fs,
       [transferEmail recording chkfile m,
        .log ("Error transferring recording (" ++ r ++ ") to shared folder:\n" ++ m)])
  | .otherErr e => (.raise e, fs, [])
  | .ok =>
      let fs1 := moveFS fs recording dest_r
      match mv2 with
      | .shutilErr m =>
          (.ret false, fs1,
           [.moveFile recording dest_r,
            transferEmail recording chkfile m,
            .log ("Error transferring recording (" ++ r ++ ") to shared folder:\n" ++ m)])
      | .otherErr e => (.raise e, fs1, [.moveFile recording dest_r])
      | .ok =>
          (.ret true, moveFS fs1 chkfile dest_c,
           [.moveFile recording dest_r, .moveFile chkfile dest_c,
            .log ("Successfully transferred recording (" ++ r ++ ") to shared folder.")])

/-- One parsed schedule descriptor (a JSON file of the TVHeadend dvr/log
directory).  `start` and `stop` are mandatory in every descriptor the
script reads; `filename`, `errors` and `data_errors` are looked up
explicitly (`has_key` / `content[...]`), so they are `Option`s here. -/
structure Sched : Type where
  start : Int
  stop : Int
  filename : Option String
  errors : Option Int
  data_errors : Option Int
  deriving DecidableEq, Repr

/-- A schedule file as found on disk: either unparseable (so `json.load`
raises `ValueError`) or a parsed descriptor. -/
inductive RawSched : Type
  | malformed (msg : String)
  | good (d : Sched)
  deriving DecidableEq, Repr

/-- Model of `checkRecordings()` (PVRtransfer.py lines 269-296): iterate
over the schedule files (key order of the directory listing), parse each,
abort with `sys.exit(0)` on a strictly in-progress recording
(`dts < now < dte`) or an upcoming one starting within the guard interval
(`now < dts < limit`).  A malformed file makes `json.load` raise and the
error propagates.  `limit` is `now + pvr_interval`. -/
def checkRecordings (now limit : Int) :
    List (String × RawSched) → Outcome Unit × List Action
  | [] => (.ret (), [.log "No conflicting recordings found, proceeding..."])
  | (_, .malformed m) :: _ => (.raise (.valueError m), [])
  | (_, .good d) :: rest =>
      if d.start < now ∧ now < d.stop then
        (.exit 0, [.log "Aborted due to conflict with current recording."])
      else if now < d.start ∧ d.start < limit then
        (.exit 0, [.log "Aborted due to conflict with next scheduled recording."])
      else checkRecordings now limit rest

/-- Response of the HTSP server to a `deleteDvrEntry` request, as the
script inspects it: a dict with a `success` key, one with an `error`
key, or anything else. -/
inductive HtspResp : Type
  | success
  | failure (msg : String)
  | unknown
  deriving DecidableEq, Repr

/-- Log line produced after a reconciliation `deleteDvrEntry` request. -/
def deleteLog (resp : HtspResp) (s fn : String) : String :=
  match resp with
  | .success => "Successfully removed old DVR entry for " ++ fn ++ "."
  | .failure m => "Error removing DVR entry " ++ s ++ ": " ++ m
  | .unknown => "Unknown error removing DVR entry " ++ s ++ "."

/-- The completed-recording classification block of `checkForRecordings`
(PVRtransfer.py lines 368-384) for one entry.  When the entry ended in
the past and carries a `filename`: an existing file is recorded as
completed; otherwise the reconciliation condition
`content['errors'] == 0 and content['data_errors'] == 0 and htspconn`
is evaluated left to right, so a missing `errors` key raises `KeyError`,
a missing `data_errors` key raises only when `errors == 0`, and the
delete request is only sent when both are zero and a connection exists. -/
def cfrClassify (now : Int) (fs : FS) (htspconn : Bool)
    (htspResp : String → HtspResp) (s : String) (d : Sched)
    (completed : List (String × String)) :
    Except PyError (List (String × String) × List Action) :=
  if d.stop < now ∧ d.filename.isSome then
    match d.filename with
    | some fn =>
        if fsHas fs fn then .ok (completed ++ [(s, fn)], [])
        else
          match d.errors with
          | none => .error (.keyError "errors")
          | some e =>
              if e = 0 then
                match d.data_errors with
                | none => .error (.keyError "data_errors")
                | some de =>
                    if de = 0 ∧ htspconn then
                      .ok (completed, [.htspDelete s, .log (deleteLog (htspResp s) s fn)])
                    else .ok (completed, [])
              else .ok (completed, [])
    | none => .ok (completed, [])
  else .ok (completed, [])

/-- The per-entry loop of `checkForRecordings` (PVRtransfer.py lines
357-405) with its trailing checks.  After the loop, the source evaluates
`upcoming < limit` before `and abort`; when no entry starts in the future
`upcoming` is still `None`, and in Python 2 ordering a `NoneType` against
a `datetime` raises `TypeError` — whatever the value of `abort`. -/
def cfrLoop (now limit : Int) (fs : FS) (htspconn : Bool)
    (htspResp : String → HtspResp) (abort : Bool) :
    List (String × RawSched) → Option Int → List (String × String) → List Action →
    Outcome (List (String × String) × Option Int) × List Action
  | [], upcoming, completed, acts =>
      match upcoming with
      | none => (.raise (.typeError "cannot compare datetime.datetime to NoneType"), acts)
      | some u =>
          if u < limit ∧ abort then
            (.exit 0, acts ++ [.log "Aborted due to conflict with next scheduled recording."])
          else if completed.length < 1 ∧ abort then (.exit 0, acts)
          else (.ret (completed, some u), acts)
  | (_, .malformed m) :: _, _, _, acts => (.raise (.valueError m), acts)
  | (s, .good d) :: rest, upcoming, completed, acts =>
      match cfrClassify now fs htspconn htspResp s d completed with
      | .error e => (.raise e, acts)
      | .ok (completed2, a2) =>
          let upcoming2 :=
            if d.start > now then
              match upcoming with
              | none => some d.start
              | some u => if d.start < u then some d.start else some u
            else upcoming
          if d.start < now ∧ now < d.stop ∧ abort then
            (.exit 0, acts ++ a2 ++ [.log "Aborted due to conflict with current recording."])
          else cfrLoop now limit fs htspconn htspResp abort rest upcoming2 completed2 (acts ++ a2)

/-- Model of `checkForRecordings(abort)` (PVRtransfer.py lines 339-405).
The HTSP connection attempt of lines 349-351 is abstracted into the
boolean `htspconn` (its own log lines are elided); schedule-file keys are
the distinct names of the directory listing. -/
def checkForRecordings (now interval : Int) (fs : FS) (htspconn : Bool)
    (htspResp : String → HtspResp) (abort : Bool)
    (schedules : List (String × RawSched)) :
    Outcome (List (String × String) × Option Int) × List Action :=
  cfrLoop now (now + interval) fs htspconn htspResp abort schedules none [] []

/-- Environment an invocation runs in: the clock, the schedule directory,
and the oracles for every external effect (share probe, write test, hash
function, per-file move results, HTSP responses, diagnostics probes). -/
structure Env : Type where
  now : Int
  interval : Int
  schedules : List (String × RawSched)
  htspconn : Bool
  htspResp : String → HtspResp
  probe : MountProbe
  wt : WriteTest
  sha256 : String → String
  recompute : Bool
  mv : String → MoveResult × MoveResult
  scriptChk : String
  tvhRun : Except String Bool
  htspSupport : Bool
  htspConnOk : Except String Bool
  freespace : Except String Int
  minFree : Int

/-- The per-recording loop of `processPreviousRecordings` (PVRtransfer.py
lines 418-431).  Each iteration re-reads the clock (modelled with the
same `env.now`, no time passing inside one invocation), compares
`nextrec < limit` (again a Python 2 `TypeError` if `nextrec` is `None`),
then checksums and moves; a `False` from `moveRecording` does not stop
the loop, an exception does. -/
def ppLoop (env : Env) :
    List (String × String) → Option Int → FS → List Action →
    Outcome FS × List Action
  | [], _, fs, acts => (.ret fs, acts)
  | (_, recfile) :: rest, nextrec, fs, acts =>
      match nextrec with
      | none => (.raise (.typeError "cannot compare datetime.datetime to NoneType"), acts)
      | some u =>
          if u < env.now + env.interval then
            (.exit 0, acts ++ [.log "Skipped unprocessed recordings due to next scheduled recording."])
          else
            match generateChecksum env.sha256 env.recompute fs recfile with
            | (.raise e, a) => (.raise e, acts ++ a)
            | (.exit c, a) => (.exit c, acts ++ a)
            | (.ret (chkfile, fs1), a) =>
                match moveRecording (env.mv recfile).1 (env.mv recfile).2 fs1 recfile chkfile with
                | (.raise e, _, a2) => (.raise e, acts ++ a ++ a2)
                | (.exit c, _, a2) => (.exit c, acts ++ a ++ a2)
                | (.ret _, fs2, a2) => ppLoop env rest nextrec fs2 (acts ++ a ++ a2)

/-- Model of `processPreviousRecordings()` (PVRtransfer.py lines
408-431): the backlog sweep.  Runs `checkForRecordings` in abort mode,
then `checkShare` in report mode, then transfers each completed
recording. -/
def processPreviousRecordings (env : Env) (fs : FS) : Outcome FS × List Action :=
  match checkForRecordings env.now env.interval fs env.htspconn env.htspResp true env.schedules with
  | (.raise e, a) => (.raise e, a)
  | (.exit c, a) => (.exit c, a)
  | (.ret (recordings, nextrec), a) =>
      match checkShare true env.probe env.wt with
      | (.raise e, a2) => (.raise e, a ++ a2)
      | (.exit c, a2) => (.exit c, a ++ a2)
      | (.ret _, a2) => ppLoop env recordings nextrec fs (a ++ a2)

/-- Model of `processRecording(recording)` (PVRtransfer.py lines
321-336): the single-recording transfer path.  Conflict check, share
check (report mode), checksum, move; the boolean result of the move is
discarded. -/
def processRecording (env : Env) (fs : FS) (recording : String) :
    Outcome FS × List Action :=
  let a0 : List Action := [.log ("About to process recording " ++ recording)]
  match checkRecordings env.now (env.now + env.interval) env.schedules with
  | (.raise e, a) => (.raise e, a0 ++ a)
  | (.exit c, a) => (.exit c, a0 ++ a)
  | (.ret _, a) =>
      match checkShare true env.probe env.wt with
      | (.raise e, a2) => (.raise e, a0 ++ a ++ a2)
      | (.exit c, a2) => (.exit c, a0 ++ a ++ a2)
      | (.ret _, a2) =>
          match generateChecksum env.sha256 env.recompute fs recording with
          | (.raise e, a3) => (.raise e, a0 ++ a ++ a2 ++ a3)
          | (.exit c, a3) => (.exit c, a0 ++ a ++ a2 ++ a3)
          | (.ret (chkfile, fs1), a3) =>
              match moveRecording (env.mv recording).1 (env.mv recording).2 fs1 recording chkfile with
              | (.raise e, _, a4) => (.raise e, a0 ++ a ++ a2 ++ a3 ++ a4)
              | (.exit c, _, a4) => (.exit c, a0 ++ a ++ a2 ++ a3 ++ a4)
              | (.ret _, fs2, a4) => (.ret fs2, a0 ++ a ++ a2 ++ a3 ++ a4)

/-- The share line of the diagnostics report
(`'Share mounted = %s; writable = %s.'` — a different format from the
`checkShare` log line), or the message of a caught exception. -/
def diagShareMsg (o : Outcome (Bool × Bool)) : String :=
  match o with
  | .ret (m, w) => "Share mounted = " ++ pyBool m ++ "; writable = " ++ pyBool w ++ "."
  | .raise e => "Error checking share: " ++ pyErrStr e
  | .exit _ => ""

/-- The recordings line of the diagnostics report.  The `upcoming`
datetime is rendered through its timestamp. -/
def diagRecMsg (o : Outcome (List (String × String) × Option Int)) : String :=
  match o with
  | .ret (completed, some u) =>
      toString completed.length ++ " completed recordings; next recording scheduled for " ++
        toString u ++ "."
  | .ret (_, none) => ""
  | .raise e => "Unable to check for recordings: " ++ pyErrStr e
  | .exit _ => ""

/-- Model of `scriptTest()` (PVRtransfer.py lines 434-483), the
diagnostics mode.  Every check sits in its own `try/except Exception`, so
caught failures only change the report text; but `sys.exit` raises
`SystemExit`, which `except Exception` does not catch in Python 2, so an
exiting `checkShare(False)` (the stale-mount timeout) terminates the
whole mode.  The oracle fields `scriptChk`, `tvhRun`, `htspConnOk` and
`freespace` stand for the checksum self-test, `checkTVH`, `checkHTSP`
and `checkLocalFreeSpace`, whose internal log lines are elided. -/
def scriptTest (env : Env) (fs : FS) : Outcome Unit × List Action :=
  let sres := checkShare false env.probe env.wt
  match sres.1 with
  | .exit c => (.exit c, sres.2)
  | _ =>
      let rres := checkForRecordings env.now env.interval fs env.htspconn env.htspResp false
        env.schedules
      match rres.1 with
      | .exit c => (.exit c, sres.2 ++ rres.2)
      | _ =>
          let service_msg := match env.tvhRun with
            | .ok r => "TVHeadend running: " ++ pyBool r
            | .error m => "Unable to check if TVHeadend is running: " ++ m
          let htsp_msg := match env.htspConnOk with
            | .ok c => "HTSP support = " ++ pyBool env.htspSupport ++ "; connection = " ++ pyBool c
            | .error m => "Unable to check for HTSP support: " ++ m
          let space_msg := match env.freespace with
            | .ok f => "Free space: " ++ toString f ++ " bytes"
            | .error m => "Unable to check free space: " ++ m
          let message := "This is a test email from the Network PVR script.\n\t\t<br>Checksum: " ++
            env.scriptChk ++ "<br>" ++ diagShareMsg sres.1 ++ "<br>" ++ diagRecMsg rres.1 ++
            "<br>" ++ service_msg ++ "<br>" ++ htsp_msg ++ "<br>" ++ space_msg
          (.ret (), sres.2 ++ rres.2 ++
            [.email "Network PVR Test Email" (message.replace "<br>" "\n\n")])

/-- Model of `checkSystem()` (PVRtransfer.py lines 486-525), the
health-check mode: warn by email when free space is below the minimum or
the TVHeadend service is not running (or either check errors). -/
def checkSystem (env : Env) : Outcome Unit × List Action :=
  let space_msg : Option String := match env.freespace with
    | .ok f => if f < env.minFree then some ("Free space below minimum threshold: " ++ toString f)
               else none
    | .error _ => some "Unable to check free space."
  let service_msg : Option String := match env.tvhRun with
    | .ok r => if r then none else some "TVHeadend service is not running."
    | .error _ => some "Unable to check if TVHeadend is running."
  if space_msg.isSome ∨ service_msg.isSome then
    let message := "This is a warning message from the Network PVR." ++
      (match space_msg with | some m => "<br>" ++ m | none => "") ++
      (match service_msg with | some m => "<br>" ++ m | none => "")
    (.ret (), [.email "Network PVR System Fault" (message.replace "<br>" "\n\n")])
  else (.ret (), [])

/-- The guarded backlog call of `__main__` (PVRtransfer.py lines 541-546
and 562-567): `processPreviousRecordings()` inside
`try ... except Exception`, prefixed by the actions `acc` already
performed.  A Python exception is caught and logged
(`'Exception: %s' % str(err)`); a `sys.exit` passes through. -/
def runBacklog (env : Env) (fs : FS) (acc : List Action) : Outcome Unit × List Action :=
  match processPreviousRecordings env fs with
  | (.raise e, a) => (.ret (), acc ++ a ++ [.log ("Exception: " ++ pyErrStr e)])
  | (.exit c, a) => (.exit c, acc ++ a)
  | (.ret _, a) => (.ret (), acc ++ a)

/-- `alertTVHError recording err`: log plus email. -/
def tvhErrorActions (recording e : String) : List Action :=
  [.log ("TVHeadend Error: " ++ e),
   .email "TVHeadend Error"
     ("TVHeadend reported an error with the recording " ++ recording ++ ": \n\n" ++ e)]

/-- Model of the `__main__` dispatch (PVRtransfer.py lines 528-567).
The flags are searched in the whole `sys.argv` (`'-t' in sys.argv`),
`argv[0]` included.  In the default branch, a second argument equal to
`'OK'` after `strip()` runs `processRecording`; any other second argument
only raises the TVHeadend alert; both then fall into the guarded backlog
call.  `processRecording` itself sits outside every `try`, so its
exceptions propagate out of the process. -/
def pmain (env : Env) (fs : FS) (argv : List String) : Outcome Unit × List Action :=
  if argv.contains "-t" then scriptTest env fs
  else if argv.contains "-c" then checkSystem env
  else if argv.contains "-r" then
    (.ret (), [.email "Network PVR System Rebooted" "The Network PVR has been restarted."])
  else if argv.contains "-p" then runBacklog env fs []
  else if argv.length > 2 then
    let hts_err := argv.getD 2 ""
    let recording := argv.getD 1 ""
    if pyStrip hts_err = "OK" then
      match processRecording env fs recording with
      | (.raise e, a) => (.raise e, a)
      | (.exit c, a) => (.exit c, a)
      | (.ret fs1, a) => runBacklog env fs1 a
    else runBacklog env fs (tvhErrorActions recording hts_err)
  else if argv.length > 1 then
    match processRecording env fs (argv.getD 1 "") with
    | (.raise e, a) => (.raise e, a)
    | (.exit c, a) => (.exit c, a)
    | (.ret fs1, a) => runBacklog env fs1 a
  else runBacklog env fs []

/-- Whether a schedule file parses. -/
def RawSched.isGood : RawSched → Bool
  | .malformed _ => false
  | .good _ => true

/-- Fixture: the schedule of the C1 scenario — a single entry that ended
in the past (`stop = now - 60`), with an output file and zero errors. -/
def schedC1 : List (String × RawSched) :=
  [("1", RawSched.good ⟨996400, 999940, some "/rec/A.ts", some 0, some 0⟩)]

/-- Fixture: a benign environment (`now = 1000000`, one-hour interval,
healthy share, clean moves) around `schedC1`. -/
def envC1 : Env :=
  { now := 1000000, interval := 3600, schedules := schedC1,
    htspconn := false, htspResp := fun _ => HtspResp.unknown,
    probe := MountProbe.mounted, wt := WriteTest.ok,
    sha256 := fun s => s, recompute := false,
    mv := fun _ => (MoveResult.ok, MoveResult.ok),
    scriptChk := "x", tvhRun := Except.ok true, htspSupport := false,
    htspConnOk := Except.ok false, freespace := Except.ok 0, minFree := 0 }

/-- Fixture: local disk holding the finished recording of `schedC1`. -/
def fsC1 : FS := [("/rec/A.ts", "AAAA")]

/-- Fixture: one entry whose recording is exactly starting:
`start = now`, `stop = now + 100` for `now = 1000`. -/
def schedC2x : List (String × RawSched) :=
  [("1", RawSched.good ⟨1000, 1100, none, none, none⟩)]

/-- Fixture: environment with a stale (timing-out) share mount. -/
def envC4 : Env := { envC1 with probe := MountProbe.timeout }

/-- Fixture: environment whose schedule directory holds one unparseable
descriptor. -/
def envC5 : Env :=
  { envC1 with schedules := [("1", RawSched.malformed "No JSON object could be decoded")] }

/-- Fixture: filesystem where both the recording and its sidecar checksum
file already exist. -/
def fsC8 : FS := [("/rec/A.ts", "DATA"), ("/rec/A.sha2", "DATA *A.ts")]

/-- Fixture for C10: entry `7` ended in the past, names an output file
that is gone, records `errors = 1` and lacks the `data_errors` field;
entry `8` is a future recording outside the guard interval (so the sweep
does not abort for it). -/
def schedC10 : List (String × RawSched) :=
  [("7", RawSched.good ⟨100, 200, some "/rec/X.ts", some 1, none⟩),
   ("8", RawSched.good ⟨5000, 6000, none, none, none⟩)]

/-- C1: the spec scenario demands that, for a schedule whose only entry
ended in the past with an existing output file and zero errors, the
backlog sweep classifies the entry as completed and checksums and moves
it.  The code does classify it as completed, but with no other entries
`upcoming` is still `None` after the loop, and `upcoming < limit`
(PVRtransfer.py line 397) raises `TypeError` in Python 2; the sweep dies
before `checkShare`, `generateChecksum` or `moveRecording` run — the
empty action trace shows that no checksum was written and no file was
moved. -/
theorem c1_backlog_crashes_instead_of_moving :
    processPreviousRecordings envC1 fsC1 =
      (Outcome.raise (PyError.typeError "cannot compare datetime.datetime to NoneType"), []) := by
  decide

/-- C2 counterexample: the claim includes the boundary instants
(`startTime <= now <= endTime`), but `checkRecordings` compares strictly
(`dts < now < dte`, PVRtransfer.py line 288).  At `now = 1000` the single
entry `(start 1000, stop 1100)` satisfies `start ≤ now ≤ stop`, yet the
evaluator does not abort: it falls through to the proceed log and returns
normally. -/
theorem c2_boundary_instant_not_aborted :
    ((1000:Int) ≤ 1000 ∧ (1000:Int) ≤ 1100) ∧
    schedC2x = [("1", RawSched.good ⟨1000, 1100, none, none, none⟩)] ∧
    checkRecordings 1000 (1000 + 3600) schedC2x =
      (Outcome.ret (), [Action.log "No conflicting recordings found, proceeding..."]) := by
  decide

/-- C2 amended: for every schedule of parseable descriptors, if some
entry is strictly in progress (`startTime < now < endTime` — boundary
instants excluded), `checkRecordings` terminates the invocation with
`sys.exit(0)`, regardless of the other entries. -/
theorem c2_amended (now limit : Int) (l : List (String × RawSched))
    (hwf : ∀ p ∈ l, RawSched.isGood p.2 = true)
    (hin : ∃ p ∈ l, ∃ d, p.2 = RawSched.good d ∧ d.start < now ∧ now < d.stop) :
    (checkRecordings now limit l).1 = Outcome.exit 0 := by
  induction l with
  | nil => obtain ⟨p, hp, _⟩ := hin; exact absurd hp (List.not_mem_nil p)
  | cons hd tl ih =>
      obtain ⟨s, raw⟩ := hd
      cases raw with
      | malformed m =>
          have := hwf (s, RawSched.malformed m) (List.mem_cons_self _ _)
          simp [RawSched.isGood] at this
      | good d =>
          by_cases h1 : d.start < now ∧ now < d.stop
          · simp [checkRecordings, h1]
          · by_cases h2 : now < d.start ∧ d.start < limit
            · simp [checkRecordings, h1, h2]
            · simp only [checkRecordings, if_neg h1, if_neg h2]
              apply ih
              · intro p hp; exact hwf p (List.mem_cons_of_mem _ hp)
              · obtain ⟨p, hp, d', hd', hs, he⟩ := hin
                rcases List.mem_cons.mp hp with hhd | htl
                · exfalso
                  subst hhd
                  cases hd'
                  exact h1 ⟨hs, he⟩
                · exact ⟨p, htl, d', hd', hs, he⟩

/-- C2 amended, witnessed at a concrete strictly-in-progress schedule. -/
theorem c2_amended_witness :
    (checkRecordings 1000 4600 [("1", RawSched.good ⟨900, 1100, none, none, none⟩)]).1 =
      Outcome.exit 0 :=
  c2_amended 1000 4600 _ (by decide)
    ⟨("1", RawSched.good ⟨900, 1100, none, none, none⟩), by simp,
      ⟨900, 1100, none, none, none⟩, rfl, by decide, by decide⟩

/-- C3 counterexample: the claim says `moveRecording` never propagates an
exception past its boundary, but the source catches only `shutil.Error`
(PVRtransfer.py line 314).  A first move step failing with an `IOError`
(for example `shutil.copy2` hitting an unwritable destination during a
cross-device move) propagates: no alert, no log, outcome `raise`. -/
theorem c3_nonshutil_failure_propagates :
    moveRecording (MoveResult.otherErr (PyError.ioError "Permission denied")) MoveResult.ok
      [] "/rec/A.ts" "/rec/A.sha2" =
      (Outcome.raise (PyError.ioError "Permission denied"), [], []) := by
  decide

/-- C3 amended: on success `moveRecording` logs a confirmation and
returns `True`; a `shutil.Error` from either move step sends the
transfer-failure alert, logs the failure and returns `False`; but any
other exception from either step propagates past the boundary. -/
theorem c3_amended (mv1 mv2 : MoveResult) (fs : FS) (rec chk : String) :
    (mv1 = MoveResult.ok → mv2 = MoveResult.ok →
       (moveRecording mv1 mv2 fs rec chk).1 = Outcome.ret true ∧
       Action.log ("Successfully transferred recording (" ++ pyBasename rec ++
           ") to shared folder.") ∈ (moveRecording mv1 mv2 fs rec chk).2.2) ∧
    (∀ m, mv1 = MoveResult.shutilErr m →
       (moveRecording mv1 mv2 fs rec chk).1 = Outcome.ret false ∧
       transferEmail rec chk m ∈ (moveRecording mv1 mv2 fs rec chk).2.2) ∧
    (∀ m, mv1 = MoveResult.ok → mv2 = MoveResult.shutilErr m →
       (moveRecording mv1 mv2 fs rec chk).1 = Outcome.ret false ∧
       transferEmail rec chk m ∈ (moveRecording mv1 mv2 fs rec chk).2.2) ∧
    (∀ e, mv1 = MoveResult.otherErr e →
       (moveRecording mv1 mv2 fs rec chk).1 = Outcome.raise e) ∧
    (∀ e, mv1 = MoveResult.ok → mv2 = MoveResult.otherErr e →
       (moveRecording mv1 mv2 fs rec chk).1 = Outcome.raise e) := by
  refine ⟨?_, ?_, ?_, ?_, ?_⟩
  · intro h1 h2; subst h1; subst h2; simp [moveRecording]
  · intro m h1; subst h1; simp [moveRecording]
  · intro m h1 h2; subst h1; subst h2; simp [moveRecording]
  · intro e h1; subst h1; simp [moveRecording]
  · intro e h1 h2; subst h1; subst h2; simp [moveRecording]

/-- C3 amended, witnessed on the successful-move branch. -/
theorem c3_amended_witness :
    (moveRecording MoveResult.ok MoveResult.ok fsC1 "/rec/A.ts" "/rec/A.sha2").1 =
      Outcome.ret true ∧
    Action.log ("Successfully transferred recording (" ++ pyBasename "/rec/A.ts" ++
        ") to shared folder.") ∈
      (moveRecording MoveResult.ok MoveResult.ok fsC1 "/rec/A.ts" "/rec/A.sha2").2.2 :=
  (c3_amended MoveResult.ok MoveResult.ok fsC1 "/rec/A.ts" "/rec/A.sha2").1 rfl rfl

/-- C4 counterexample: the claim says the stale-mount timeout alerts and
exits only when `reportOnFailure` is true, so the diagnostics mode (which
probes with reporting disabled) never exits with failure.  But the
SIGALRM handler `handleShareError` (PVRtransfer.py lines 105-111) ignores
the `report` flag: on a timing-out mount the diagnostics mode
`scriptTest` alerts and terminates with exit code 1. -/
theorem c4_diagnostics_timeout_exits_one :
    scriptTest envC4 fsC1 =
      (Outcome.exit 1, [Action.log "Stale share mount!", shareEmail "Stale share mount!"]) := by
  decide

/-- C4 amended: with reporting disabled, the probe terminates the process
exactly when the mount-presence test times out (the alarm handler logs,
alerts and exits(1) unconditionally); every other outcome returns
normally. -/
theorem c4_amended (probe : MountProbe) (wt : WriteTest) :
    (probe = MountProbe.timeout →
       checkShare false probe wt =
         (Outcome.exit 1, [Action.log "Stale share mount!", shareEmail "Stale share mount!"])) ∧
    (probe ≠ MountProbe.timeout → ∀ c, (checkShare false probe wt).1 ≠ Outcome.exit c) := by
  constructor
  · intro h; subst h; rfl
  · intro h c
    cases probe with
    | timeout => exact absurd rfl h
    | raises m => simp [checkShare]
    | notMounted => simp [checkShare]
    | mounted => cases wt <;> simp [checkShare]

/-- C4 amended, witnessed at the timeout and at a healthy probe. -/
theorem c4_amended_witness :
    checkShare false MountProbe.timeout WriteTest.ok =
      (Outcome.exit 1, [Action.log "Stale share mount!", shareEmail "Stale share mount!"]) ∧
    (checkShare false MountProbe.mounted WriteTest.ok).1 ≠ Outcome.exit 1 :=
  ⟨(c4_amended MountProbe.timeout WriteTest.ok).1 rfl,
   (c4_amended MountProbe.mounted WriteTest.ok).2 (by decide) 1⟩

/-- C5 counterexample: the claim says every invocation mode routes a
malformed schedule descriptor into a top-level handler that logs and
exits, so the process never crashes visibly.  But in the default mode the
call `processRecording(recording)` (PVRtransfer.py lines 554/560) sits
outside the `try` of lines 562-567: with argv
`[prog, recording, "OK"]` and an unparseable descriptor, the
`json.load` `ValueError` raised inside `checkRecordings` propagates out
of `__main__` — a visible crash. -/
theorem c5_single_recording_path_crashes :
    (pmain envC5 fsC1 ["PVRtransfer.py", "/rec/B.ts", "OK"]).1 =
      Outcome.raise (PyError.valueError "No JSON object could be decoded") := by
  decide

/-- C5 amended: the catch-all only guards the backlog sweep.  In the
backlog-only mode (`-p`) no Python exception ever escapes (part 1), but
in the default mode the single-recording path parses the schedule before
any handler is installed, so a malformed descriptor propagates uncaught
(part 2, stated for the two-argument form; the three-argument `OK` form
takes the same path). -/
theorem c5_amended (env : Env) (fs : FS) :
    (∀ argv : List String, argv.contains "-t" = false → argv.contains "-c" = false →
       argv.contains "-r" = false → argv.contains "-p" = true →
       ∀ e, (pmain env fs argv).1 ≠ Outcome.raise e) ∧
    (∀ prog rec s m rest, env.schedules = (s, RawSched.malformed m) :: rest →
       [prog, rec].contains "-t" = false → [prog, rec].contains "-c" = false →
       [prog, rec].contains "-r" = false → [prog, rec].contains "-p" = false →
       (pmain env fs [prog, rec]).1 = Outcome.raise (PyError.valueError m)) := by
  constructor
  · intro argv h1 h2 h3 h4 e
    simp only [pmain, h1, h2, h3, h4, Bool.false_eq_true, if_false, if_true]
    rcases hpp : processPreviousRecordings env fs with ⟨o, a⟩
    cases o <;> simp [runBacklog, hpp]
  · intro prog rec s m rest hsched h1 h2 h3 h4
    simp only [pmain, h1, h2, h3, h4, Bool.false_eq_true, if_false]
    simp only [List.length_cons, List.length_nil, gt_iff_lt, Nat.lt_irrefl,
      Nat.lt_succ_iff, if_false, if_true]
    simp [processRecording, hsched, checkRecordings]

/-- C5 amended, witnessed: a `-p` invocation over the malformed schedule
does not propagate the parse error, while the default two-argument
invocation does. -/
theorem c5_amended_witness :
    (pmain envC5 fsC1 ["PVRtransfer.py", "-p"]).1 ≠
      Outcome.raise (PyError.valueError "No JSON object could be decoded") ∧
    (pmain envC5 fsC1 ["PVRtransfer.py", "/rec/B.ts"]).1 =
      Outcome.raise (PyError.valueError "No JSON object could be decoded") :=
  ⟨(c5_amended envC5 fsC1).1 ["PVRtransfer.py", "-p"] (by decide) (by decide) (by decide)
      (by decide) (PyError.valueError "No JSON object could be decoded"),
   (c5_amended envC5 fsC1).2 "PVRtransfer.py" "/rec/B.ts" "1"
      "No JSON object could be decoded" [] rfl (by decide) (by decide) (by decide) (by decide)⟩

/-- C6 counterexample: the claim says the probe logs the final
`(mounted, writable)` pair on every outcome, but the final
`logPrint('Share mounted = ...')` of PVRtransfer.py line 264 is only
reached when control falls through: with reporting enabled and the share
unmounted, the probe exits(1) at line 254 and no pair line is ever
logged. -/
theorem c6_exit_skips_pair_log :
    (checkShare true MountProbe.notMounted WriteTest.ok).1 = Outcome.exit 1 ∧
    (∀ m w : Bool,
       Action.log (sharePairMsg m w) ∉ (checkShare true MountProbe.notMounted WriteTest.ok).2) := by
  decide

/-- C6 amended: the probe logs the final `(mounted, writable)` pair on
every outcome in which it returns control to its caller; the terminating
outcomes (timeout, or a reported failure) exit before the pair line. -/
theorem c6_amended (report : Bool) (probe : MountProbe) (wt : WriteTest) (m w : Bool)
    (h : (checkShare report probe wt).1 = Outcome.ret (m, w)) :
    Action.log (sharePairMsg m w) ∈ (checkShare report probe wt).2 := by
  cases probe with
  | timeout => simp [checkShare] at h
  | raises msg => cases report <;> simp_all [checkShare]
  | notMounted => cases report <;> simp_all [checkShare]
  | mounted => cases wt <;> cases report <;> simp_all [checkShare]

/-- C6 amended, witnessed on the non-reporting unmounted outcome. -/
theorem c6_amended_witness :
    (checkShare false MountProbe.notMounted WriteTest.ok).1 = Outcome.ret (false, false) ∧
    Action.log (sharePairMsg false false) ∈ (checkShare false MountProbe.notMounted WriteTest.ok).2 :=
  ⟨rfl, c6_amended false MountProbe.notMounted WriteTest.ok false false rfl⟩

/-- C7: for an invocation `[prog, recording, err]` that triggers none of
the flag modes, a second argument whose `strip()` differs from `"OK"`
produces exactly the TVHeadend alert actions (one log, one email carrying
the recording path and the upstream error) and then runs the guarded
backlog sweep — no conflict check, share probe, checksum or move happens
for that recording.  When the stripped second argument equals `"OK"`,
the invocation behaves exactly like the plain `[prog, recording]` form. -/
theorem c7_upstream_error_dispatch (env : Env) (fs : FS) (prog rec e : String)
    (ht : [prog, rec, e].contains "-t" = false)
    (hc : [prog, rec, e].contains "-c" = false)
    (hr : [prog, rec, e].contains "-r" = false)
    (hp : [prog, rec, e].contains "-p" = false) :
    (pyStrip e ≠ "OK" →
       pmain env fs [prog, rec, e] = runBacklog env fs (tvhErrorActions rec e)) ∧
    (pyStrip e = "OK" → pmain env fs [prog, rec, e] = pmain env fs [prog, rec]) := by
  have ht2 : [prog, rec].contains "-t" = false := by
    simp at ht ⊢; exact ⟨ht.1, ht.2.1⟩
  have hc2 : [prog, rec].contains "-c" = false := by
    simp at hc ⊢; exact ⟨hc.1, hc.2.1⟩
  have hr2 : [prog, rec].contains "-r" = false := by
    simp at hr ⊢; exact ⟨hr.1, hr.2.1⟩
  have hp2 : [prog, rec].contains "-p" = false := by
    simp at hp ⊢; exact ⟨hp.1, hp.2.1⟩
  constructor
  · intro hok
    simp only [pmain, ht, hc, hr, hp, Bool.false_eq_true, if_false]
    simp [hok]
  · intro hok
    simp only [pmain, ht, hc, hr, hp, ht2, hc2, hr2, hp2, Bool.false_eq_true, if_false]
    simp [hok]

/-- C7, witnessed: a concrete upstream error string skips transfer,
raises the single alert and still runs the backlog sweep; and the `"OK"`
sentinel (with surrounding whitespace) matches the two-argument
behaviour. -/
theorem c7_upstream_error_dispatch_witness :
    pmain envC1 fsC1 ["PVRtransfer.py", "/rec/A.ts", "tuner failure"] =
      runBacklog envC1 fsC1 (tvhErrorActions "/rec/A.ts" "tuner failure") ∧
    pmain envC1 fsC1 ["PVRtransfer.py", "/rec/A.ts", " OK "] =
      pmain envC1 fsC1 ["PVRtransfer.py", "/rec/A.ts"] :=
  ⟨(c7_upstream_error_dispatch envC1 fsC1 "PVRtransfer.py" "/rec/A.ts" "tuner failure"
      (by decide) (by decide) (by decide) (by decide)).1 (by decide),
   (c7_upstream_error_dispatch envC1 fsC1 "PVRtransfer.py" "/rec/A.ts" " OK "
      (by decide) (by decide) (by decide) (by decide)).2 (by decide)⟩

/-- C8: when the sidecar checksum file already exists and recomputation
is not forced, `generateChecksum` returns the sidecar path with no digest
computation, no log line, no write, and an unchanged filesystem — so a
second call is the same no-op and the sidecar content cannot change. -/
theorem c8_checksum_idempotent (sha : String → String) (fs : FS) (p : String)
    (h : fsHas fs (sha2Path p) = true) :
    generateChecksum sha false fs p = (Outcome.ret (sha2Path p, fs), []) := by
  simp [generateChecksum, h]

/-- C8, witnessed on a filesystem already holding `/rec/A.sha2`. -/
theorem c8_checksum_idempotent_witness :
    fsHas fsC8 (sha2Path "/rec/A.ts") = true ∧
    generateChecksum (fun s => s) false fsC8 "/rec/A.ts" =
      (Outcome.ret (sha2Path "/rec/A.ts", fsC8), []) :=
  ⟨by decide, c8_checksum_idempotent (fun s => s) fsC8 "/rec/A.ts" (by decide)⟩

/-- C9: whenever `checkShare` is called with reporting enabled and
returns normally instead of terminating the process, the returned pair is
`(mounted = True, writable = True)`: every unmounted, unwritable or
erroring branch (and the timeout) ends in `sys.exit(1)`, so callers that
continue may assume a mounted, writable share. -/
theorem c9_report_mode_return_is_healthy (probe : MountProbe) (wt : WriteTest)
    (m w : Bool) (h : (checkShare true probe wt).1 = Outcome.ret (m, w)) :
    m = true ∧ w = true := by
  cases probe with
  | timeout => simp [checkShare] at h
  | raises msg => simp [checkShare] at h
  | notMounted => simp [checkShare] at h
  | mounted => cases wt <;> simp_all [checkShare]

/-- C9, witnessed on the healthy probe. -/
theorem c9_report_mode_return_is_healthy_witness :
    (checkShare true MountProbe.mounted WriteTest.ok).1 = Outcome.ret (true, true) ∧
    (true = true ∧ true = true) :=
  ⟨rfl, c9_report_mode_return_is_healthy MountProbe.mounted WriteTest.ok true true rfl⟩

/-- C10 counterexample: `schedC10` contains a past-end entry carrying an
output path whose file no longer exists and whose descriptor lacks the
`data_errors` field; the claim says the sweep raises an uncaught
key-lookup error.  In fact `content['errors'] == 0` is evaluated first
and here `errors = 1`, so the Python `and` short-circuits before
`content['data_errors']` is touched: the sweep finishes its scan and
exits 0 (nothing to do) without any `KeyError`. -/
theorem c10_short_circuit_no_keyerror :
    checkForRecordings 1000 3600 [] true (fun _ => HtspResp.success) true schedC10 =
      (Outcome.exit 0, []) := by
  decide

/-- C10 amended: for a past-end entry whose output path is present but
whose file is gone, the classification raises `KeyError('errors')` when
the `errors` field is missing, and `KeyError('data_errors')` when
`errors` is zero and `data_errors` is missing; but when `errors` is
present and nonzero the conjunction short-circuits, nothing is raised,
and the entry contributes nothing to the sweep. -/
theorem c10_amended (now interval : Int) (fs : FS) (conn : Bool)
    (resp : String → HtspResp) (abort : Bool) (s : String) (d : Sched)
    (rest : List (String × RawSched)) (fn : String)
    (hstop : d.stop < now) (hfn : d.filename = some fn) (hex : fsHas fs fn = false) :
    (d.errors = none →
       (checkForRecordings now interval fs conn resp abort ((s, RawSched.good d) :: rest)).1 =
         Outcome.raise (PyError.keyError "errors")) ∧
    (d.errors = some 0 → d.data_errors = none →
       (checkForRecordings now interval fs conn resp abort ((s, RawSched.good d) :: rest)).1 =
         Outcome.raise (PyError.keyError "data_errors")) ∧
    (∀ e, d.errors = some e → e ≠ 0 → d.start ≤ d.stop →
       checkForRecordings now interval fs conn resp abort ((s, RawSched.good d) :: rest) =
         checkForRecordings now interval fs conn resp abort rest) := by
  refine ⟨?_, ?_, ?_⟩
  · intro herr
    simp [checkForRecordings, cfrLoop, cfrClassify, hstop, hfn, hex, herr]
  · intro herr hde
    simp [checkForRecordings, cfrLoop, cfrClassify, hstop, hfn, hex, herr, hde]
  · intro e herr hne hse
    have hlt : d.start < now := lt_of_le_of_lt hse hstop
    have h1 : ¬ d.start > now := not_lt_of_gt hlt
    have h2 : ¬ now < d.stop := not_lt_of_gt hstop
    simp [checkForRecordings, cfrLoop, cfrClassify, hstop, hfn, hex, herr, hne, h1, h2]

/-- C10 amended, witnessed on three concrete descriptors (missing
`errors`; zero `errors` with missing `data_errors`; nonzero `errors`
with missing `data_errors`). -/
theorem c10_amended_witness :
    (checkForRecordings 1000 3600 [] false (fun _ => HtspResp.unknown) true
        [("7", RawSched.good ⟨100, 200, some "/rec/X.ts", none, none⟩)]).1 =
      Outcome.raise (PyError.keyError "errors") ∧
    (checkForRecordings 1000 3600 [] false (fun _ => HtspResp.unknown) true
        [("7", RawSched.good ⟨100, 200, some "/rec/X.ts", some 0, none⟩)]).1 =
      Outcome.raise (PyError.keyError "data_errors") ∧
    checkForRecordings 1000 3600 [] false (fun _ => HtspResp.unknown) true
        [("7", RawSched.good ⟨100, 200, some "/rec/X.ts", some 1, none⟩)] =
      checkForRecordings 1000 3600 [] false (fun _ => HtspResp.unknown) true [] :=
  ⟨(c10_amended 1000 3600 [] false (fun _ => HtspResp.unknown) true "7"
      ⟨100, 200, some "/rec/X.ts", none, none⟩ [] "/rec/X.ts"
      (by decide) rfl (by decide)).1 rfl,
   (c10_amended 1000 3600 [] false (fun _ => HtspResp.unknown) true "7"
      ⟨100, 200, some "/rec/X.ts", some 0, none⟩ [] "/rec/X.ts"
      (by decide) rfl (by decide)).2.1 rfl rfl,
   (c10_amended 1000 3600 [] false (fun _ => HtspResp.unknown) true "7"
      ⟨100, 200, some "/rec/X.ts", some 1, none⟩ [] "/rec/X.ts"
      (by decide) rfl (by decide)).2.2 1 rfl (by decide) (by decide)⟩

end PVR
